import Mathlib

/-!
Verification of the OpenSSL backend layer of this repository
(`cryptography/bindings/openssl/backend.py` and
`cryptography/primitives/block/modes.py`): the cipher registry, the
streaming cipher engine wrappers and the streaming digest wrappers.

The native OpenSSL engine itself is out of scope of the specification and is
therefore modelled abstractly: each native call site is parameterised by the
values the engine reports (`res` status codes, `outlen` counts, the bytes it
writes into a caller-allocated buffer).  Python exceptions are modelled by
`Except PyError`; `assert` failures (fatal aborts) map to
`PyError.assertionError`, `KeyError` to `PyError.keyError` and `ValueError`
to `PyError.valueError`.  Byte strings are `List Nat`, and cffi's `NULL`
becomes `Option.none`.
-/

/-- Python exception kinds raised by the backend: `KeyError` (missing dict
key), `ValueError` (recoverable, e.g. duplicate registration) and
`AssertionError` (a fatal `assert` abort). -/
inductive PyError
  | keyError
  | valueError (msg : String)
  | assertionError
deriving DecidableEq, Repr

/-- Modelled from the spec: `cryptography/primitives/block/ciphers.py` is not
under `src/`; the spec describes the cipher classes `AES`, `Camellia` and
`TripleDES` used as registry keys.  In the reimplementation they form a
closed enumeration of cipher kinds (spec section 9, "closed enum + table
dispatch"). -/
inductive CipherKind
  | AES
  | Camellia
  | TripleDES
deriving DecidableEq, Repr, Fintype

/-- The mode classes used as registry keys: `CBC` and `ECB` are in
`cryptography/primitives/block/modes.py`; `CTR`, `OFB` and `CFB` are
imported by the backend but their file is not under `src/`, so they are
modelled from the spec's mode list. -/
inductive ModeKind
  | CBC
  | CTR
  | ECB
  | OFB
  | CFB
deriving DecidableEq, Repr, Fintype

/-- Modelled from the spec: the `name` class attribute of each cipher class
("AES", "Camellia", "TripleDES" per the spec's descriptor examples). -/
def cipherName : CipherKind → String
  | .AES => "AES"
  | .Camellia => "Camellia"
  | .TripleDES => "TripleDES"

/-- The `name` class attribute of each mode class: "CBC" and "ECB" appear in
`modes.py` under `src/`; the remaining three are modelled from the spec. -/
def modeName : ModeKind → String
  | .CBC => "CBC"
  | .CTR => "CTR"
  | .ECB => "ECB"
  | .OFB => "OFB"
  | .CFB => "CFB"

/-- Modelled from the spec: a cipher descriptor carries a name (via its
kind), a key, and a key size in bits derived from the key length. -/
structure CipherDescriptor where
  kind : CipherKind
  key : List Nat
deriving DecidableEq, Repr

/-- Modelled from the spec: `key_size` (bits, derived from key length). -/
def key_size (c : CipherDescriptor) : Nat := c.key.length * 8

/-- Modelled from the spec (section 3, ModeDescriptor): a mode carries
either an initialization vector, a nonce, or neither.  This is the
tagged-union rendering of the `interfaces.ModeWithInitializationVector` /
`interfaces.ModeWithNonce` duck-typed capability checks; the `interfaces`
module is not under `src/`. -/
inductive ModePayload
  | withIV (initialization_vector : List Nat)
  | withNonce (nonce : List Nat)
  | bare
deriving DecidableEq, Repr

/-- A mode instance as the backend sees it: its registry kind plus its
capability payload. -/
structure ModeDescriptor where
  kind : ModeKind
  payload : ModePayload
deriving DecidableEq, Repr

/-- One piece of a `GetCipherByName` format string: a literal, or one of the
three interpolations `cipher.name`, `cipher.key_size`, `mode.name` that
appear in `backend.py`'s format strings. -/
inductive FmtPart
  | lit (s : String)
  | cipherNamePart
  | cipherKeySizePart
  | modeNamePart
deriving DecidableEq, Repr

/-- Render one format part against a cipher and mode, as `str.format` does
with the keyword arguments `cipher=cipher, mode=mode`. -/
def renderPart (cipher : CipherDescriptor) (mode : ModeDescriptor) : FmtPart → String
  | .lit s => s
  | .cipherNamePart => cipherName cipher.kind
  | .cipherKeySizePart => toString (key_size cipher)
  | .modeNamePart => modeName mode.kind

/-- Render a whole format string. -/
def renderFmt (cipher : CipherDescriptor) (mode : ModeDescriptor) : List FmtPart → String
  | [] => ""
  | p :: rest => renderPart cipher mode p ++ renderFmt cipher mode rest

/-- Python's `str.lower()` on the ASCII algorithm names involved: lowercase
every character. -/
def strLower (s : String) : String := ⟨s.data.map Char.toLower⟩

/-- `GetCipherByName.__call__` (backend.py:105-111): formats the stored
format string with the cipher and mode and lowercases the result; the
resulting name is then passed to `EVP_get_cipherbyname` by the caller of
the adapter (modelled separately as the abstract engine lookup). -/
def GetCipherByName (fmt : List FmtPart) (cipher : CipherDescriptor) (mode : ModeDescriptor) : String :=
  strLower (renderFmt cipher mode fmt)

/-- The format string of backend.py:145,
`cipher.name-cipher.key_size-mode.name` joined with dashes. -/
def defaultFmt : List FmtPart :=
  [.cipherNamePart, .lit "-", .cipherKeySizePart, .lit "-", .modeNamePart]

/-- The TripleDES format string of backend.py:151: the literal
`des-ede3-` followed by `mode.name`. -/
def tripleDESFmt : List FmtPart :=
  [.lit "des-ede3-", .modeNamePart]

/-- The cipher registry `Ciphers._cipher_registry`: a dict keyed by the
(cipher class, mode class) pair, holding the registered `GetCipherByName`
adapter (represented by its format string). -/
abbrev Registry := List ((CipherKind × ModeKind) × List FmtPart)

/-- Python dict lookup on the registry: first (and, by the duplicate guard,
only) binding of the key. -/
def regLookup : Registry → CipherKind × ModeKind → Option (List FmtPart)
  | [], _ => none
  | (k, v) :: rest, key => if k = key then some v else regLookup rest key

/-- The `ValueError` message of backend.py:132. -/
def dupMsg (cipher_cls : CipherKind) (mode_cls : ModeKind) : String :=
  "Duplicate registration for: " ++ cipherName cipher_cls ++ " " ++ modeName mode_cls

/-- `Ciphers.register_cipher_adapter` (backend.py:130-135): raises
`ValueError` when the pair is already registered, otherwise adds the
binding. -/
def Ciphers.register_cipher_adapter (reg : Registry) (cipher_cls : CipherKind)
    (mode_cls : ModeKind) (adapter : List FmtPart) : Except PyError Registry :=
  match regLookup reg (cipher_cls, mode_cls) with
  | some _ => .error (.valueError (dupMsg cipher_cls mode_cls))
  | none => .ok (reg ++ [((cipher_cls, mode_cls), adapter)])

/-- `itertools.product([AES, Camellia], [CBC, CTR, ECB, OFB, CFB])` in
backend.py:138-141, in product order. -/
def defaultProductPairs : List (CipherKind × ModeKind) :=
  [CipherKind.AES, CipherKind.Camellia].flatMap fun c =>
    [ModeKind.CBC, ModeKind.CTR, ModeKind.ECB, ModeKind.OFB, ModeKind.CFB].map fun m => (c, m)

/-- `Ciphers._register_default_ciphers` (backend.py:137-152): registers the
parameterised adapter for every (AES/Camellia, mode) pair and the fixed
`des-ede3-` adapter for TripleDES with CBC, CFB and OFB. -/
def Ciphers._register_default_ciphers (reg : Registry) : Except PyError Registry := do
  let reg1 ← defaultProductPairs.foldlM
    (fun r p => Ciphers.register_cipher_adapter r p.1 p.2 defaultFmt) reg
  let reg2 ← [ModeKind.CBC, ModeKind.CFB, ModeKind.OFB].foldlM
    (fun r m => Ciphers.register_cipher_adapter r CipherKind.TripleDES m tripleDESFmt) reg1
  return reg2

/-- The registry state after `Ciphers.__init__` (backend.py:115-120): start
from the empty dict and run `_register_default_ciphers` (which raises no
error from the empty registry; the error branch is unreachable). -/
def defaultRegistry : Registry :=
  match Ciphers._register_default_ciphers [] with
  | .ok r => r
  | .error _ => []

/-- `Ciphers.supported` (backend.py:122-128): `False` on a registry miss
(`KeyError` swallowed), otherwise run the adapter and compare the engine's
answer against `NULL`.  `getCipher` models `EVP_get_cipherbyname`, with
`none` for `NULL`. -/
def Ciphers.supported (reg : Registry) (getCipher : String → Option Nat)
    (cipher : CipherDescriptor) (mode : ModeDescriptor) : Bool :=
  match regLookup reg (cipher.kind, mode.kind) with
  | none => false
  | some fmt => (getCipher (GetCipherByName fmt cipher mode)).isSome

/-- `Hashes.supported` (backend.py:233-235): compare
`EVP_get_digestbyname(name)` (modelled by `getDigest`) against `NULL`. -/
def Hashes.supported (getDigest : String → Option Nat) (name : String) : Bool :=
  (getDigest name).isSome

/-- The observable state of a native `EVP_CIPHER_CTX`: whether the engine's
internal padding is enabled (OpenSSL's default is enabled, `1`) and whether
`EVP_CIPHER_CTX_cleanup` has released it. -/
structure CipherCtx where
  padding : Nat
  released : Bool
deriving DecidableEq, Repr

/-- `ffi.new("unsigned char[]", n)` followed by the native call writing
`written` from the start of the buffer: the allocation is `buf.length`
zero bytes, of which the engine overwrites a prefix.  Whatever the engine
reports, the caller can only ever observe `buf.length` bytes. -/
def writeBuf (buf written : List Nat) : List Nat :=
  (written ++ buf.drop written.length).take buf.length

/-- What one native `EVP_EncryptUpdate` / `EVP_DecryptUpdate` call reports:
its `res` status, the `outlen` it stores, and the bytes it writes into the
caller's buffer. -/
structure UpdateCall where
  res : Nat
  outlen : Nat
  written : List Nat

/-- What one native finalize call (`EVP_EncryptFinal_ex` /
`EVP_DecryptFinal_ex`) reports, together with the result of the
`EVP_CIPHER_CTX_cleanup` call that follows it. -/
structure FinalCall where
  res : Nat
  outlen : Nat
  written : List Nat
  cleanupRes : Nat

/-- `Ciphers.update_encrypt_ctx` (backend.py:190-196): allocate
`len(data) + block_size - 1` bytes, call `EVP_EncryptUpdate`, assert its
status is nonzero, and return `ffi.buffer(buf)[:outlen]` — a Python slice,
which clamps at the buffer's length. -/
def Ciphers.update_encrypt_ctx (block_size : Nat) (engine : List Nat → UpdateCall)
    (data : List Nat) : Except PyError (List Nat) :=
  let buf := List.replicate (data.length + block_size - 1) 0
  let r := engine data
  if r.res = 0 then .error .assertionError
  else .ok ((writeBuf buf r.written).take r.outlen)

/-- `Ciphers.update_decrypt_ctx` (backend.py:198-204): identical to the
encrypt path but calling `EVP_DecryptUpdate`. -/
def Ciphers.update_decrypt_ctx (block_size : Nat) (engine : List Nat → UpdateCall)
    (data : List Nat) : Except PyError (List Nat) :=
  let buf := List.replicate (data.length + block_size - 1) 0
  let r := engine data
  if r.res = 0 then .error .assertionError
  else .ok ((writeBuf buf r.written).take r.outlen)

/-- `Ciphers.finalize_encrypt_ctx` (backend.py:206-214): allocate
`block_size` bytes, call `EVP_EncryptFinal_ex`, assert nonzero, call
`EVP_CIPHER_CTX_cleanup`, assert it returned 1, and return
`ffi.buffer(buf)[:outlen]`.  The returned context reflects the successful
cleanup. -/
def Ciphers.finalize_encrypt_ctx (ctx : CipherCtx) (block_size : Nat)
    (r : FinalCall) : Except PyError (List Nat × CipherCtx) :=
  let buf := List.replicate block_size 0
  if r.res = 0 then .error .assertionError
  else if r.cleanupRes = 1 then
    .ok ((writeBuf buf r.written).take r.outlen, { ctx with released := true })
  else .error .assertionError

/-- `Ciphers.finalize_decrypt_ctx` (backend.py:216-224): identical to the
encrypt path but calling `EVP_DecryptFinal_ex`. -/
def Ciphers.finalize_decrypt_ctx (ctx : CipherCtx) (block_size : Nat)
    (r : FinalCall) : Except PyError (List Nat × CipherCtx) :=
  let buf := List.replicate block_size 0
  if r.res = 0 then .error .assertionError
  else if r.cleanupRes = 1 then
    .ok ((writeBuf buf r.written).take r.outlen, { ctx with released := true })
  else .error .assertionError

/-- `Ciphers._create_ctx` (backend.py:174-188): make a fresh context
(padding at OpenSSL's default, not yet released), look the adapter up in
the registry (a bare dict access: a miss is a `KeyError`), run it and
assert the engine's answer is not `NULL`, then pick `iv_nonce` by the
mode's capability: its initialization vector, else its nonce, else `NULL`.
Returns the `(ctx, evp_cipher, iv_nonce)` triple. -/
def Ciphers._create_ctx (reg : Registry) (getCipher : String → Option Nat)
    (cipher : CipherDescriptor) (mode : ModeDescriptor) :
    Except PyError (CipherCtx × Nat × Option (List Nat)) :=
  let ctx : CipherCtx := { padding := 1, released := false }
  match regLookup reg (cipher.kind, mode.kind) with
  | none => .error .keyError
  | some fmt =>
    match getCipher (GetCipherByName fmt cipher mode) with
    | none => .error .assertionError
    | some evp_cipher =>
      let iv_nonce : Option (List Nat) :=
        match mode.payload with
        | .withIV iv => some iv
        | .withNonce n => some n
        | .bare => none
      .ok (ctx, evp_cipher, iv_nonce)

/-- `Ciphers.create_encrypt_ctx` (backend.py:154-162): run `_create_ctx`,
call `EVP_EncryptInit_ex` (modelled by `encryptInit`, given the resolved
cipher handle, the key and the iv/nonce), assert its status is nonzero,
then disable the engine's internal padding with
`EVP_CIPHER_CTX_set_padding(ctx, 0)` and return the context. -/
def Ciphers.create_encrypt_ctx (reg : Registry) (getCipher : String → Option Nat)
    (encryptInit : Nat → List Nat → Option (List Nat) → Nat)
    (cipher : CipherDescriptor) (mode : ModeDescriptor) : Except PyError CipherCtx :=
  match Ciphers._create_ctx reg getCipher cipher mode with
  | .error e => .error e
  | .ok (ctx, evp_cipher, iv_nonce) =>
    if encryptInit evp_cipher cipher.key iv_nonce = 0 then .error .assertionError
    else .ok { ctx with padding := 0 }

/-- `Ciphers.create_decrypt_ctx` (backend.py:164-172): identical to the
encrypt path but calling `EVP_DecryptInit_ex`. -/
def Ciphers.create_decrypt_ctx (reg : Registry) (getCipher : String → Option Nat)
    (decryptInit : Nat → List Nat → Option (List Nat) → Nat)
    (cipher : CipherDescriptor) (mode : ModeDescriptor) : Except PyError CipherCtx :=
  match Ciphers._create_ctx reg getCipher cipher mode with
  | .error e => .error e
  | .ok (ctx, evp_cipher, iv_nonce) =>
    if decryptInit evp_cipher cipher.key iv_nonce = 0 then .error .assertionError
    else .ok { ctx with padding := 0 }

/-- The observable state of a native `EVP_MD_CTX`: whether
`EVP_MD_CTX_cleanup` has released it. -/
structure HashCtx where
  released : Bool
deriving DecidableEq, Repr

/-- What one native `EVP_DigestFinal_ex` call reports (the backend passes
`NULL` for the out-length pointer, so only the status and the written
bytes are observable), together with the result of the
`EVP_MD_CTX_cleanup` call that follows it. -/
structure DigestFinalCall where
  res : Nat
  written : List Nat
  cleanupRes : Nat

/-- `Hashes.finalize_ctx` (backend.py:250-256): allocate `digest_size`
bytes, call `EVP_DigestFinal_ex`, assert nonzero, call
`EVP_MD_CTX_cleanup`, assert it returned 1, and return
`ffi.buffer(buf)[:digest_size]`.  No comparison of `digest_size` against
the algorithm's true digest size happens anywhere in the function. -/
def Hashes.finalize_ctx (ctx : HashCtx) (r : DigestFinalCall)
    (digest_size : Nat) : Except PyError (List Nat × HashCtx) :=
  let buf := List.replicate digest_size 0
  if r.res = 0 then .error .assertionError
  else if r.cleanupRes = 1 then
    .ok ((writeBuf buf r.written).take digest_size, { ctx with released := true })
  else .error .assertionError

/-- The `api` object handed to `get_iv_or_nonce` in `modes.py`; the only
attribute those methods touch is `get_null_for_ecb`, modelled abstractly
(its result type `V` is whatever the api returns). -/
structure ModesAPI (V : Type) where
  get_null_for_ecb : V

namespace modes

/-- The `CBC` class of `primitives/block/modes.py` (lines 17-25): stores the
initialization vector it was constructed with. -/
structure CBC where
  initialization_vector : List Nat
deriving DecidableEq, Repr

/-- `CBC.get_iv_or_nonce` (modes.py:24-25): returns the stored
initialization vector; the `api` argument is unused. -/
def CBC.get_iv_or_nonce {V : Type} (self : CBC) (_api : ModesAPI V) : List Nat :=
  self.initialization_vector

/-- The `ECB` class of `primitives/block/modes.py` (lines 28-32): no
instance state. -/
structure ECB where
deriving DecidableEq, Repr

/-- `ECB.get_iv_or_nonce` (modes.py:31-32): returns
`api.get_null_for_ecb()`. -/
def ECB.get_iv_or_nonce {V : Type} (_self : ECB) (api : ModesAPI V) : V :=
  api.get_null_for_ecb

end modes

/-! ## Helper lemmas -/

/-- A caller-allocated buffer of `cap` zero bytes still has length `cap`
after the engine writes a prefix into it. -/
lemma writeBuf_replicate_length (cap : Nat) (w : List Nat) :
    (writeBuf (List.replicate cap 0) w).length = cap := by
  simp [writeBuf]
  omega

/-- Adding a binding for a key that is absent makes it the one the lookup
finds. -/
lemma regLookup_append_self (reg : Registry) (k : CipherKind × ModeKind) (a : List FmtPart)
    (h : regLookup reg k = none) : regLookup (reg ++ [(k, a)]) k = some a := by
  induction reg with
  | nil => simp [regLookup]
  | cons p rest ih =>
    obtain ⟨pk, pv⟩ := p
    by_cases hk : pk = k
    · simp [regLookup, hk] at h
    · simp only [List.cons_append, regLookup, hk, if_false]
      exact ih (by simpa [regLookup, hk] using h)

/-! ## Claim theorems -/

/-- Claim C1, counterexample: the claim allows the engine-reported `outlen`
to reach `len(chunk) + block_size` and says update "returns exactly the
outlen bytes".  With an empty chunk and block size 16 the allocated buffer
holds `0 + 16 - 1 = 15` bytes; if the engine reports `outlen = 16`
(`= len(chunk) + block_size`, within the claim's stated bound), the Python
slice `ffi.buffer(buf)[:outlen]` clamps at the buffer's length and only 15
bytes come back — not the 16 the claim requires. -/
theorem update_encrypt_outlen_exceeds_buffer :
    (Ciphers.update_encrypt_ctx 16 (fun _ => UpdateCall.mk 1 16 (List.replicate 16 1))
      ([] : List Nat)).map List.length = Except.ok 15
    ∧ (UpdateCall.mk 1 16 (List.replicate 16 1)).outlen = List.length ([] : List Nat) + 16
    ∧ (15 : Nat) ≠ 16 := ⟨rfl, rfl, by decide⟩

/-- Claim C1, amended: for every cipher context and input chunk, update
(encrypt or decrypt) allocates an output buffer of exactly
`len(chunk) + block_size - 1` bytes, and whenever the native update call
succeeds and the engine's reported `outlen` is at most that capacity
(which may be zero), the call returns exactly the first `outlen` bytes of
the buffer. -/
theorem update_ctx_buffer_size_and_output (block_size : Nat)
    (engine : List Nat → UpdateCall) (data : List Nat)
    (hres : (engine data).res ≠ 0)
    (hout : (engine data).outlen ≤ data.length + block_size - 1) :
    (writeBuf (List.replicate (data.length + block_size - 1) 0) (engine data).written).length
        = data.length + block_size - 1
    ∧ Ciphers.update_encrypt_ctx block_size engine data
        = .ok ((writeBuf (List.replicate (data.length + block_size - 1) 0)
            (engine data).written).take (engine data).outlen)
    ∧ (Ciphers.update_encrypt_ctx block_size engine data).map List.length
        = .ok (engine data).outlen
    ∧ Ciphers.update_decrypt_ctx block_size engine data
        = .ok ((writeBuf (List.replicate (data.length + block_size - 1) 0)
            (engine data).written).take (engine data).outlen)
    ∧ (Ciphers.update_decrypt_ctx block_size engine data).map List.length
        = .ok (engine data).outlen := by
  refine ⟨writeBuf_replicate_length _ _, ?_, ?_, ?_, ?_⟩
  · simp [Ciphers.update_encrypt_ctx, hres]
  · simp [Ciphers.update_encrypt_ctx, hres, Except.map, List.length_take,
      writeBuf_replicate_length]
    omega
  · simp [Ciphers.update_decrypt_ctx, hres]
  · simp [Ciphers.update_decrypt_ctx, hres, Except.map, List.length_take,
      writeBuf_replicate_length]
    omega

/-- Claim C1 witness: block size 16, a 10-byte chunk, the engine reporting
success with `outlen = 5`: both update directions return exactly 5
bytes. -/
theorem update_ctx_buffer_size_and_output_witness :
    (Ciphers.update_encrypt_ctx 16 (fun _ => UpdateCall.mk 1 5 (List.replicate 5 2))
      (List.replicate 10 0)).map List.length = Except.ok 5
    ∧ (Ciphers.update_decrypt_ctx 16 (fun _ => UpdateCall.mk 1 5 (List.replicate 5 2))
      (List.replicate 10 0)).map List.length = Except.ok 5 :=
  ⟨(update_ctx_buffer_size_and_output 16 (fun _ => UpdateCall.mk 1 5 (List.replicate 5 2))
      (List.replicate 10 0) (by decide) (by decide)).2.2.1,
   (update_ctx_buffer_size_and_output 16 (fun _ => UpdateCall.mk 1 5 (List.replicate 5 2))
      (List.replicate 10 0) (by decide) (by decide)).2.2.2.2⟩

/-- Claim C2: the default registry binds every (AES/Camellia, mode) pair to
the parameterised lowercasing adapter and (TripleDES, CBC/CFB/OFB) to the
fixed `des-ede3-` adapter with no key-size component; the adapters build
the lowercased names, e.g. AES with a 16-byte key and CBC gives
"aes-128-cbc". -/
theorem default_registry_population :
    (∀ (c : CipherKind) (m : ModeKind), (c = CipherKind.AES ∨ c = CipherKind.Camellia) →
        regLookup defaultRegistry (c, m) = some defaultFmt)
    ∧ (∀ m : ModeKind, (m = ModeKind.CBC ∨ m = ModeKind.CFB ∨ m = ModeKind.OFB) →
        regLookup defaultRegistry (CipherKind.TripleDES, m) = some tripleDESFmt)
    ∧ (∀ (cipher : CipherDescriptor) (mode : ModeDescriptor),
        GetCipherByName defaultFmt cipher mode
          = strLower (cipherName cipher.kind ++ "-" ++ toString (key_size cipher)
              ++ "-" ++ modeName mode.kind))
    ∧ (∀ (cipher : CipherDescriptor) (mode : ModeDescriptor),
        GetCipherByName tripleDESFmt cipher mode = strLower ("des-ede3-" ++ modeName mode.kind))
    ∧ GetCipherByName defaultFmt ⟨CipherKind.AES, List.replicate 16 0⟩
        ⟨ModeKind.CBC, ModePayload.withIV (List.replicate 16 0)⟩ = "aes-128-cbc"
    ∧ GetCipherByName defaultFmt ⟨CipherKind.AES, List.replicate 32 0⟩
        ⟨ModeKind.ECB, ModePayload.bare⟩ = "aes-256-ecb"
    ∧ GetCipherByName tripleDESFmt ⟨CipherKind.TripleDES, List.replicate 24 0⟩
        ⟨ModeKind.CFB, ModePayload.withIV (List.replicate 8 0)⟩ = "des-ede3-cfb" := by
  refine ⟨by decide, by decide, ?_, ?_, by decide, by decide, by decide⟩
  · intro cipher mode
    simp [GetCipherByName, defaultFmt, renderFmt, renderPart, String.append_assoc]
  · intro cipher mode
    simp [GetCipherByName, tripleDESFmt, renderFmt, renderPart]

/-- Claim C2 witness: the (AES, CBC) and (TripleDES, CFB) registry
entries. -/
theorem default_registry_population_witness :
    regLookup defaultRegistry (CipherKind.AES, ModeKind.CBC) = some defaultFmt
    ∧ regLookup defaultRegistry (CipherKind.TripleDES, ModeKind.CFB) = some tripleDESFmt :=
  ⟨default_registry_population.1 CipherKind.AES ModeKind.CBC (Or.inl rfl),
   default_registry_population.2.1 ModeKind.CFB (Or.inr (Or.inl rfl))⟩

/-- Claim C3: a second registration attempt for an already-registered
(cipher class, mode class) pair fails with the duplicate-registration
`ValueError`, and the lookup (the one `supported` and `_create_ctx` use for
resolution) still finds the first registration's adapter. -/
theorem register_cipher_adapter_one_shot (reg reg₂ : Registry) (ck : CipherKind)
    (mk : ModeKind) (a : List FmtPart)
    (h : Ciphers.register_cipher_adapter reg ck mk a = .ok reg₂) :
    (∀ a₂, Ciphers.register_cipher_adapter reg₂ ck mk a₂
        = .error (PyError.valueError (dupMsg ck mk)))
    ∧ regLookup reg₂ (ck, mk) = some a := by
  cases hl : regLookup reg (ck, mk) with
  | some v => simp [Ciphers.register_cipher_adapter, hl] at h
  | none =>
    simp only [Ciphers.register_cipher_adapter, hl, Except.ok.injEq] at h
    subst h
    have hlook := regLookup_append_self reg (ck, mk) a hl
    exact ⟨fun a₂ => by simp [Ciphers.register_cipher_adapter, hlook], hlook⟩

/-- Claim C3 witness: register (AES, CBC) into the empty registry, then a
second attempt with a different adapter fails and the first adapter is
still the one found. -/
theorem register_cipher_adapter_one_shot_witness :
    Ciphers.register_cipher_adapter [((CipherKind.AES, ModeKind.CBC), defaultFmt)]
      CipherKind.AES ModeKind.CBC tripleDESFmt
      = .error (PyError.valueError (dupMsg CipherKind.AES ModeKind.CBC))
    ∧ regLookup [((CipherKind.AES, ModeKind.CBC), defaultFmt)] (CipherKind.AES, ModeKind.CBC)
      = some defaultFmt :=
  ⟨(register_cipher_adapter_one_shot [] [((CipherKind.AES, ModeKind.CBC), defaultFmt)]
      CipherKind.AES ModeKind.CBC defaultFmt rfl).1 tripleDESFmt,
   (register_cipher_adapter_one_shot [] [((CipherKind.AES, ModeKind.CBC), defaultFmt)]
      CipherKind.AES ModeKind.CBC defaultFmt rfl).2⟩

/-- Claim C4: support queries are total boolean functions: `Ciphers.supported`
returns `false` on an unregistered pair (the `KeyError` is swallowed) and
`false` when the engine answers `NULL` for the resolved name, and
`Hashes.supported` likewise returns a boolean for every algorithm name
(`false` exactly when the engine answers `NULL`). -/
theorem supported_queries_never_raise (reg : Registry) (getCipher : String → Option Nat)
    (cipher : CipherDescriptor) (mode : ModeDescriptor)
    (getDigest : String → Option Nat) (algo : String) :
    (regLookup reg (cipher.kind, mode.kind) = none →
      Ciphers.supported reg getCipher cipher mode = false)
    ∧ (∀ fmt, regLookup reg (cipher.kind, mode.kind) = some fmt →
        getCipher (GetCipherByName fmt cipher mode) = none →
        Ciphers.supported reg getCipher cipher mode = false)
    ∧ (Hashes.supported getDigest algo = true ∨ Hashes.supported getDigest algo = false)
    ∧ (getDigest algo = none → Hashes.supported getDigest algo = false) := by
  refine ⟨fun h => by simp [Ciphers.supported, h],
    fun fmt hf hn => by simp [Ciphers.supported, hf, hn],
    ?_, fun h => by simp [Hashes.supported, h]⟩
  cases hb : Hashes.supported getDigest algo
  · exact Or.inr rfl
  · exact Or.inl rfl

/-- Claim C4 witness: the empty registry and an engine that recognizes
nothing: both queries answer `false` without raising. -/
theorem supported_queries_never_raise_witness :
    Ciphers.supported [] (fun _ => none) ⟨CipherKind.AES, []⟩ ⟨ModeKind.CBC, ModePayload.bare⟩
      = false
    ∧ Hashes.supported (fun _ => none) "sha256" = false :=
  ⟨(supported_queries_never_raise [] (fun _ => none) ⟨CipherKind.AES, []⟩
      ⟨ModeKind.CBC, ModePayload.bare⟩ (fun _ => none) "sha256").1 rfl,
   (supported_queries_never_raise [] (fun _ => none) ⟨CipherKind.AES, []⟩
      ⟨ModeKind.CBC, ModePayload.bare⟩ (fun _ => none) "sha256").2.2.2 rfl⟩

/-- Claim C5: on every successful `_create_ctx`, the `iv_nonce` handed to
the engine is exactly the mode's single capability payload: the
initialization vector for an IV-carrying mode, the nonce for a
nonce-carrying mode, and `NULL` (`none`) for a bare mode such as ECB — a
bare mode has no IV or nonce field for the engine to read. -/
theorem create_ctx_iv_nonce_selection (reg : Registry) (getCipher : String → Option Nat)
    (cipher : CipherDescriptor) (mode : ModeDescriptor)
    (ctx : CipherCtx) (evp : Nat) (ivn : Option (List Nat))
    (h : Ciphers._create_ctx reg getCipher cipher mode = .ok (ctx, evp, ivn)) :
    (∀ iv, mode.payload = ModePayload.withIV iv → ivn = some iv)
    ∧ (∀ n, mode.payload = ModePayload.withNonce n → ivn = some n)
    ∧ (mode.payload = ModePayload.bare → ivn = none) := by
  cases hl : regLookup reg (cipher.kind, mode.kind) with
  | none => simp [Ciphers._create_ctx, hl] at h
  | some fmt =>
    cases hg : getCipher (GetCipherByName fmt cipher mode) with
    | none => simp [Ciphers._create_ctx, hl, hg] at h
    | some e =>
      simp only [Ciphers._create_ctx, hl, hg, Except.ok.injEq, Prod.mk.injEq] at h
      obtain ⟨hctx, hevp, hivn⟩ := h
      refine ⟨fun iv hp => ?_, fun n hp => ?_, fun hp => ?_⟩ <;>
        (rw [hp] at hivn; exact hivn.symm)

/-- Claim C5 witness: creating an (AES, CBC-with-IV [1,2]) context against
the default registry hands exactly `[1,2]` to the engine. -/
theorem create_ctx_iv_nonce_selection_witness :
    Ciphers._create_ctx defaultRegistry (fun _ => some 7) ⟨CipherKind.AES, List.replicate 16 0⟩
      ⟨ModeKind.CBC, ModePayload.withIV [1, 2]⟩
      = .ok ({ padding := 1, released := false }, 7, some [1, 2])
    ∧ (some [1, 2] : Option (List Nat)) = some [1, 2] :=
  ⟨rfl,
   (create_ctx_iv_nonce_selection defaultRegistry (fun _ => some 7)
      ⟨CipherKind.AES, List.replicate 16 0⟩ ⟨ModeKind.CBC, ModePayload.withIV [1, 2]⟩
      { padding := 1, released := false } 7 (some [1, 2]) rfl).1 [1, 2] rfl⟩

/-- Claim C6: finalize (encrypt or decrypt) allocates a buffer of exactly
`block_size` bytes; when the native final call succeeds, the cleanup call
succeeds and the engine's reported tail `outlen` is at most `block_size`,
it returns exactly that tail (between 0 and `block_size` bytes) and the
returned context is released (`EVP_CIPHER_CTX_cleanup` ran on the success
path). -/
theorem finalize_ctx_output_and_release (ctx : CipherCtx) (block_size : Nat) (r : FinalCall)
    (hres : r.res ≠ 0) (hclean : r.cleanupRes = 1) (hout : r.outlen ≤ block_size) :
    (writeBuf (List.replicate block_size 0) r.written).length = block_size
    ∧ Ciphers.finalize_encrypt_ctx ctx block_size r
        = .ok ((writeBuf (List.replicate block_size 0) r.written).take r.outlen,
            { ctx with released := true })
    ∧ (Ciphers.finalize_encrypt_ctx ctx block_size r).map (fun p => p.1.length)
        = .ok r.outlen
    ∧ Ciphers.finalize_decrypt_ctx ctx block_size r
        = .ok ((writeBuf (List.replicate block_size 0) r.written).take r.outlen,
            { ctx with released := true })
    ∧ (Ciphers.finalize_decrypt_ctx ctx block_size r).map (fun p => p.1.length)
        = .ok r.outlen := by
  refine ⟨writeBuf_replicate_length _ _, ?_, ?_, ?_, ?_⟩
  · simp [Ciphers.finalize_encrypt_ctx, hres, hclean]
  · simp [Ciphers.finalize_encrypt_ctx, hres, hclean, Except.map, List.length_take,
      writeBuf_replicate_length]
    omega
  · simp [Ciphers.finalize_decrypt_ctx, hres, hclean]
  · simp [Ciphers.finalize_decrypt_ctx, hres, hclean, Except.map, List.length_take,
      writeBuf_replicate_length]
    omega

/-- Claim C6 witness: block size 16 and an engine reporting a full 16-byte
tail: both finalize directions return exactly 16 bytes. -/
theorem finalize_ctx_output_and_release_witness :
    (Ciphers.finalize_encrypt_ctx ⟨1, false⟩ 16
      (FinalCall.mk 1 16 (List.replicate 16 3) 1)).map (fun p => p.1.length) = Except.ok 16
    ∧ (Ciphers.finalize_decrypt_ctx ⟨1, false⟩ 16
      (FinalCall.mk 1 16 (List.replicate 16 3) 1)).map (fun p => p.1.length) = Except.ok 16 :=
  ⟨(finalize_ctx_output_and_release ⟨1, false⟩ 16 (FinalCall.mk 1 16 (List.replicate 16 3) 1)
      (by decide) rfl (by decide)).2.2.1,
   (finalize_ctx_output_and_release ⟨1, false⟩ 16 (FinalCall.mk 1 16 (List.replicate 16 3) 1)
      (by decide) rfl (by decide)).2.2.2.2⟩

/-- Claim C7: every context returned by a successful `create_encrypt_ctx`
or `create_decrypt_ctx` has had the engine's internal padding disabled
(`EVP_CIPHER_CTX_set_padding(ctx, 0)`) before being returned. -/
theorem create_ctx_disables_padding (reg : Registry) (getCipher : String → Option Nat)
    (ini : Nat → List Nat → Option (List Nat) → Nat)
    (cipher : CipherDescriptor) (mode : ModeDescriptor) (ctx : CipherCtx) :
    (Ciphers.create_encrypt_ctx reg getCipher ini cipher mode = .ok ctx → ctx.padding = 0)
    ∧ (Ciphers.create_decrypt_ctx reg getCipher ini cipher mode = .ok ctx → ctx.padding = 0) := by
  constructor <;> intro h
  · cases hc : Ciphers._create_ctx reg getCipher cipher mode with
    | error e => simp [Ciphers.create_encrypt_ctx, hc] at h
    | ok t =>
      obtain ⟨c, evp, ivn⟩ := t
      by_cases hi : ini evp cipher.key ivn = 0
      · simp [Ciphers.create_encrypt_ctx, hc, hi] at h
      · simp only [Ciphers.create_encrypt_ctx, hc, hi, if_false, Except.ok.injEq] at h
        subst h
        rfl
  · cases hc : Ciphers._create_ctx reg getCipher cipher mode with
    | error e => simp [Ciphers.create_decrypt_ctx, hc] at h
    | ok t =>
      obtain ⟨c, evp, ivn⟩ := t
      by_cases hi : ini evp cipher.key ivn = 0
      · simp [Ciphers.create_decrypt_ctx, hc, hi] at h
      · simp only [Ciphers.create_decrypt_ctx, hc, hi, if_false, Except.ok.injEq] at h
        subst h
        rfl

/-- Claim C7 witness: a successful AES-CBC context creation returns a
context whose padding flag is 0. -/
theorem create_ctx_disables_padding_witness :
    Ciphers.create_encrypt_ctx defaultRegistry (fun _ => some 7) (fun _ _ _ => 1)
      ⟨CipherKind.AES, List.replicate 16 0⟩
      ⟨ModeKind.CBC, ModePayload.withIV (List.replicate 16 0)⟩
      = .ok { padding := 0, released := false }
    ∧ (CipherCtx.mk 0 false).padding = 0 :=
  ⟨rfl,
   (create_ctx_disables_padding defaultRegistry (fun _ => some 7) (fun _ _ _ => 1)
      ⟨CipherKind.AES, List.replicate 16 0⟩
      ⟨ModeKind.CBC, ModePayload.withIV (List.replicate 16 0)⟩
      { padding := 0, released := false }).1 rfl⟩

/-- Claim C8: when the native init call reports failure (status 0) on a
combination that resolved successfully, both context creators abort with
the fatal `AssertionError` — they do not return one of the recoverable
error kinds (`KeyError` / `ValueError`) or a context. -/
theorem create_ctx_init_failure_fatal (reg : Registry) (getCipher : String → Option Nat)
    (ini : Nat → List Nat → Option (List Nat) → Nat)
    (cipher : CipherDescriptor) (mode : ModeDescriptor)
    (ctx : CipherCtx) (evp : Nat) (ivn : Option (List Nat))
    (h : Ciphers._create_ctx reg getCipher cipher mode = .ok (ctx, evp, ivn))
    (hfail : ini evp cipher.key ivn = 0) :
    Ciphers.create_encrypt_ctx reg getCipher ini cipher mode = .error PyError.assertionError
    ∧ Ciphers.create_decrypt_ctx reg getCipher ini cipher mode = .error PyError.assertionError := by
  constructor
  · simp [Ciphers.create_encrypt_ctx, h, hfail]
  · simp [Ciphers.create_decrypt_ctx, h, hfail]

/-- Claim C8 witness: an engine whose init call always fails makes AES-CBC
context creation abort with the assertion error. -/
theorem create_ctx_init_failure_fatal_witness :
    Ciphers.create_encrypt_ctx defaultRegistry (fun _ => some 7) (fun _ _ _ => 0)
      ⟨CipherKind.AES, List.replicate 16 0⟩
      ⟨ModeKind.CBC, ModePayload.withIV (List.replicate 16 0)⟩
      = .error PyError.assertionError
    ∧ Ciphers.create_decrypt_ctx defaultRegistry (fun _ => some 7) (fun _ _ _ => 0)
      ⟨CipherKind.AES, List.replicate 16 0⟩
      ⟨ModeKind.CBC, ModePayload.withIV (List.replicate 16 0)⟩
      = .error PyError.assertionError :=
  create_ctx_init_failure_fatal defaultRegistry (fun _ => some 7) (fun _ _ _ => 0)
    ⟨CipherKind.AES, List.replicate 16 0⟩
    ⟨ModeKind.CBC, ModePayload.withIV (List.replicate 16 0)⟩
    { padding := 1, released := false } 7 (some (List.replicate 16 0)) rfl rfl

/-- Claim C9: digest finalize returns exactly `digest_size` bytes and
releases the context whenever the engine's final and cleanup calls report
success — for every `digest_size`, matching the algorithm or not (no
validation of `digest_size` happens at this layer); an engine-reported
failure becomes the fatal `AssertionError`. -/
theorem hashes_finalize_digest_size (ctx : HashCtx) (r : DigestFinalCall) (digest_size : Nat) :
    (r.res ≠ 0 → r.cleanupRes = 1 →
      (Hashes.finalize_ctx ctx r digest_size).map (fun p => p.1.length) = .ok digest_size
      ∧ (Hashes.finalize_ctx ctx r digest_size).map (fun p => p.2.released) = .ok true)
    ∧ (r.res = 0 → Hashes.finalize_ctx ctx r digest_size = .error PyError.assertionError) := by
  constructor
  · intro h1 h2
    constructor
    · simp [Hashes.finalize_ctx, h1, h2, Except.map, List.length_take, writeBuf_replicate_length]
    · simp [Hashes.finalize_ctx, h1, h2, Except.map]
  · intro h
    simp [Hashes.finalize_ctx, h]

/-- Claim C9 witness: a successful 20-byte digest finalize returns 20 bytes
and a released context. -/
theorem hashes_finalize_digest_size_witness :
    (Hashes.finalize_ctx ⟨false⟩ (DigestFinalCall.mk 1 (List.replicate 20 4) 1) 20).map
      (fun p => p.1.length) = Except.ok 20
    ∧ (Hashes.finalize_ctx ⟨false⟩ (DigestFinalCall.mk 1 (List.replicate 20 4) 1) 20).map
      (fun p => p.2.released) = Except.ok true :=
  (hashes_finalize_digest_size ⟨false⟩ (DigestFinalCall.mk 1 (List.replicate 20 4) 1) 20).1
    (by decide) rfl

/-- Claim C10: `get_iv_or_nonce` on a CBC mode returns exactly the
initialization vector it was constructed with, for every `api` argument
(the argument is ignored), and on an ECB mode returns
`api.get_null_for_ecb()`.  This access path lives on the mode classes and
is structurally separate from the backend's dispatch: the backend's
`ModeDescriptor` carries only the capability payload and `_create_ctx`
never consults `get_iv_or_nonce`. -/
theorem modes_get_iv_or_nonce_spec {V : Type} (iv : List Nat) (api : ModesAPI V)
    (e : modes.ECB) :
    (modes.CBC.mk iv).get_iv_or_nonce api = iv
    ∧ e.get_iv_or_nonce api = api.get_null_for_ecb :=
  ⟨rfl, rfl⟩
